import Mathlib

/-!
Verification of the ansible-reviewer scripts.

`analyze_role_structure.py` is a pure function of the filesystem state under
the role root (plus the final path component, used as the role name).  We
embed the filesystem as an inductive tree of directory entries and translate
the script's pathlib queries into functions on that tree:

* `Path.exists()` follows symbolic links: it is true for regular files,
  directories and special files, and for a symlink exactly when its resolved
  target exists.
* `Path.is_file()` follows symbolic links: true for a regular file and for a
  symlink whose resolved target is a regular file.
* `Path.is_dir()` is true for directories.  Symbolic links whose target is a
  directory are outside the model (the tree has no contents for them); every
  modelled symlink resolves to a regular file, to a non-file, or dangles,
  recorded by the `resolvesToFile` flag (false covers both dangling links and
  links to special files, which the scripts never distinguish).
* `Path.glob("**/*")` enumerates every entry reachable below a directory,
  recursing into subdirectories but not through symlinks.
* `Path.glob("README*")` enumerates the direct children (of any kind) whose
  name starts with `README`; on a root that is not a directory it yields
  nothing (pathlib's selector first checks `is_dir` on the root).

`run_ansible_lint.py` is a pure function of the outcome of one subprocess
invocation (exit code, captured stdout/stderr text, or the raised exception),
embedded as the sum type `InvokeResult`.  `json.loads` is abstracted as a
partial parsing function `String → Option Json`; the one fact about it some
theorems need — `json.loads ""` raises, i.e. the empty string is not valid
JSON — is taken as a hypothesis.
-/

namespace AnsibleReviewer

/-- A filesystem node.  `symlink b` is a symbolic link whose resolved target
is a regular file iff `b`; symlinks to directories are outside the model.
`special` stands for sockets, fifos, devices. -/
inductive FS where
  | file : FS
  | symlink (resolvesToFile : Bool) : FS
  | special : FS
  | dir (children : List (String × FS)) : FS
deriving Repr

/-- `Path.is_file()`: regular file, or symlink resolving to a regular file. -/
def FS.isFile : FS → Bool
  | .file => true
  | .symlink rf => rf
  | _ => false

/-- `Path.exists()` at a node that was found: follows symlinks. -/
def FS.existsb : FS → Bool
  | .symlink rf => rf
  | _ => true

/-- Direct children of a node (empty for non-directories). -/
def FS.children : FS → List (String × FS)
  | .dir cs => cs
  | _ => []

/-- Look up one path component among the children. -/
def FS.child (fs : FS) (name : String) : Option FS :=
  fs.children.lookup name

/-- Follow a relative path through the tree. -/
def FS.lookupPath : FS → List String → Option FS
  | fs, [] => some fs
  | fs, n :: rest =>
    match fs.child n with
    | some c => FS.lookupPath c rest
    | none => none

/-- `(root / p).exists()`. -/
def FS.pexists (fs : FS) (p : List String) : Bool :=
  match fs.lookupPath p with
  | some e => e.existsb
  | none => false

/-- `(root / p).exists() and (root / p).is_dir()`. -/
def FS.isDirAt (fs : FS) (p : List String) : Bool :=
  match fs.lookupPath p with
  | some (.dir _) => true
  | _ => false

mutual
/-- Number of entries `f` in `list(node.glob("**/*"))` with `f.is_file()`:
the recursive enumeration descends into subdirectories only, and counts
entries that resolve to regular files. -/
def FS.countFiles : FS → Nat
  | .dir cs => countFilesOf cs
  | _ => 0
termination_by structural fs => fs

def countFilesOf : List (String × FS) → Nat
  | [] => 0
  | (_, c) :: rest => (if c.isFile then 1 else 0) + c.countFiles + countFilesOf rest
termination_by structural l => l
end

mutual
/-- The count the spec describes for `file_count`: regular files only, with
symlinks, directories and special files all excluded.  This is the spec-side
notion, kept separate from `FS.countFiles` (the code's count) so the two can
be compared. -/
def FS.specRegularFileCount : FS → Nat
  | .dir cs => specRegularFileCountOf cs
  | _ => 0
termination_by structural fs => fs

def specRegularFileCountOf : List (String × FS) → Nat
  | [] => 0
  | (_, c) :: rest =>
    (match c with | FS.file => 1 | _ => 0) + c.specRegularFileCount
      + specRegularFileCountOf rest
termination_by structural l => l
end

/-- Status record per expected directory: the `file_count` key is present
only when the directory exists. -/
structure DirStatus where
  «exists» : Bool
  file_count : Option Nat
  description : String
deriving Repr, DecidableEq

structure Issue where
  severity : String
  message : String
deriving Repr, DecidableEq

structure Recommendation where
  type : String
  message : String
deriving Repr, DecidableEq

structure Summary where
  directories_present : Nat
  total_expected : Nat
  issue_count : Nat
  recommendation_count : Nat
deriving Repr, DecidableEq

/-- The analysis dict; `structure_` models the `"structure"` key, an
insertion-ordered mapping, as the list of key/value pairs in insertion
order (`structure` is a Lean keyword). -/
structure StructureReport where
  role_name : String
  structure_ : List (String × DirStatus)
  issues : List Issue
  recommendations : List Recommendation
  summary : Summary
deriving Repr, DecidableEq

/-- The `expected_dirs` catalog, in the script's insertion order. -/
def expected_dirs : List (String × String) :=
  [("tasks", "Task files (main.yml required)"),
   ("handlers", "Handler files"),
   ("templates", "Jinja2 templates"),
   ("files", "Static files"),
   ("vars", "Variable files"),
   ("defaults", "Default variables (main.yml recommended)"),
   ("meta", "Role metadata (main.yml for Galaxy)"),
   ("library", "Custom modules"),
   ("module_utils", "Module utilities"),
   ("lookup_plugins", "Custom lookup plugins")]

/-- One entry of the `"structure"` mapping, from the loop body. -/
def entryStatus (root : FS) (nm desc : String) : DirStatus :=
  match root.lookupPath [nm] with
  | some (FS.dir cs) =>
    { «exists» := true, file_count := some (FS.countFiles (FS.dir cs)), description := desc }
  | _ => { «exists» := false, file_count := none, description := desc }

def missingTasksIssue : Issue :=
  ⟨"error", "Missing tasks/main.yml - required entry point for role"⟩

def docRecommendation : Recommendation :=
  ⟨"documentation", "Consider adding README.md to document the role"⟩

def metaRecommendation : Recommendation :=
  ⟨"metadata", "Consider adding meta/main.yml for Ansible Galaxy compatibility"⟩

def varsRecommendation : Recommendation :=
  ⟨"variables", "Consider adding defaults/main.yml to define role defaults"⟩

def testingRecommendation : Recommendation :=
  ⟨"testing", "Consider adding tests/ or molecule/ directory for role testing"⟩

/-- `list(role_path.glob("README*"))` is nonempty: some direct child of the
root (of any kind — pathlib matches every directory entry) has a name
starting with `README`. -/
def hasReadme (root : FS) : Bool :=
  root.children.any (fun p => p.1.startsWith "README")

/-- Shallow embedding of `analyze_role_structure`.  `role_name` stands for
`Path(role_path).name`, `root` for the filesystem state at `role_path`. -/
def analyze_role_structure (role_name : String) (root : FS) : StructureReport :=
  let structure_ := expected_dirs.map (fun p => (p.1, entryStatus root p.1 p.2))
  let issues := if root.pexists ["tasks", "main.yml"] then [] else [missingTasksIssue]
  let recommendations :=
    (if hasReadme root then [] else [docRecommendation]) ++
    (if root.pexists ["meta", "main.yml"] then [] else [metaRecommendation]) ++
    (if root.pexists ["defaults", "main.yml"] then [] else [varsRecommendation]) ++
    (if root.pexists ["tests"] || root.pexists ["molecule"] then []
     else [testingRecommendation])
  { role_name := role_name
    structure_ := structure_
    issues := issues
    recommendations := recommendations
    summary :=
      { directories_present := ((structure_.map Prod.snd).filter (fun d => d.«exists»)).length
        total_expected := expected_dirs.length
        issue_count := issues.length
        recommendation_count := recommendations.length } }

/-! ### run_ansible_lint -/

/-- A Python/JSON value, the possible shapes of `json.loads` output and of
the `findings` field (the raw-text fallback stores a Python `str`, which is
the same runtime type as a parsed JSON string, so `Json.str` covers both). -/
inductive Json where
  | null : Json
  | bool (b : Bool) : Json
  | num (n : Int) : Json
  | str (s : String) : Json
  | arr (elements : List Json) : Json
  | obj (fields : List (String × Json)) : Json
deriving Repr

/-- The outcome of the one `subprocess.run` call: either the tool completed
(within the 60 s timeout) with an exit code and captured stdout/stderr text,
or the invocation raised. -/
inductive InvokeResult where
  | completed (exitCode : Int) (stdout : String) (stderr : String) : InvokeResult
  | fileNotFound : InvokeResult
  | timeout : InvokeResult
  | otherError (msg : String) : InvokeResult

/-- The result dict of `run_ansible_lint`: a field is `none` when the key is
absent from the dict. -/
structure LintReport where
  success : Bool
  findings : Option Json
  summary : Option String
  stderr : Option String
  error : Option String
deriving Repr

/-- Shallow embedding of `run_ansible_lint`.  `jsonLoads` abstracts
`json.loads` (`none` = `json.JSONDecodeError`); `res` is the outcome of the
subprocess invocation, the function's only other input. -/
def run_ansible_lint (jsonLoads : String → Option Json) : InvokeResult → LintReport
  | .completed _ stdout stderr =>
    let findings : Json :=
      if stdout = "" then Json.arr []
      else
        match jsonLoads stdout with
        | some v => v
        | none => Json.str stdout
    let summary : String :=
      match findings with
      | Json.arr xs => "Found " ++ toString xs.length ++ " ansible-lint findings"
      | _ => "ansible-lint completed"
    { success := true
      findings := some findings
      summary := some summary
      stderr := if stderr = "" then none else some stderr
      error := none }
  | .fileNotFound =>
    { success := false, findings := none, summary := none, stderr := none
      error := some "ansible-lint not found. Install with: pip install ansible-lint" }
  | .timeout =>
    { success := false, findings := none, summary := none, stderr := none
      error := some "ansible-lint timed out after 60 seconds" }
  | .otherError msg =>
    { success := false, findings := none, summary := none, stderr := none
      error := some msg }

/-- A concrete stand-in for `json.loads`, used to instantiate the abstract
parser in witnesses and counterexamples.  Like the real `json.loads`, it
fails on the empty string. -/
def demoJsonLoads : String → Option Json := fun s =>
  if s = "[1, 2]" then some (Json.arr [Json.num 1, Json.num 2]) else none

/-! ### Theorems -/

/-- C3: whenever the tool is launched and completes within the timeout, the
report has `success = true` — for every exit code and every captured stdout,
parseable or not — and whenever stdout is additionally valid JSON (the
parser succeeds; real `json.loads` fails on empty input, hypothesis `h0`)
`findings` is the parsed value. -/
theorem c3_completed_success_parsed_findings
    (jsonLoads : String → Option Json) (code : Int) (out err : String)
    (h0 : jsonLoads "" = none) :
    (run_ansible_lint jsonLoads (.completed code out err)).success = true ∧
    ∀ v, jsonLoads out = some v →
      (run_ansible_lint jsonLoads (.completed code out err)).findings = some v := by
  refine ⟨rfl, fun v hv => ?_⟩
  by_cases hout : out = ""
  · rw [hout] at hv; rw [h0] at hv; exact absurd hv (by simp)
  · simp only [run_ansible_lint, if_neg hout, hv]

/-- Witness for C3 at a concrete parser, nonzero exit code and JSON output. -/
theorem c3_completed_success_parsed_findings_witness :
    (run_ansible_lint demoJsonLoads (.completed 2 "[1, 2]" "")).success = true ∧
    (run_ansible_lint demoJsonLoads (.completed 2 "[1, 2]" "")).findings
      = some (Json.arr [Json.num 1, Json.num 2]) :=
  ⟨(c3_completed_success_parsed_findings demoJsonLoads 2 "[1, 2]" "" rfl).1,
   (c3_completed_success_parsed_findings demoJsonLoads 2 "[1, 2]" "" rfl).2
     (Json.arr [Json.num 1, Json.num 2]) rfl⟩

/-- C4, as frozen: whenever the tool completes and stdout is not valid JSON
(the parser fails on it, and — like the real `json.loads` — on the empty
string), the report stores the raw stdout text in `findings`. -/
def rawFallbackClaim : Prop :=
  ∀ (jsonLoads : String → Option Json) (code : Int) (out err : String),
    jsonLoads "" = none → jsonLoads out = none →
    (run_ansible_lint jsonLoads (.completed code out err)).success = true ∧
    (run_ansible_lint jsonLoads (.completed code out err)).findings = some (Json.str out)

/-- C4 counterexample: with empty stdout (which is not valid JSON — the
parser rejects it) the code never attempts a parse and keeps the initial
`findings = []`, which differs from the raw text `""`. -/
theorem c4_counterexample : ¬ rawFallbackClaim := by
  intro h
  have h2 := (h demoJsonLoads 2 "" "boom" rfl rfl).2
  have h3 : (run_ansible_lint demoJsonLoads (.completed 2 "" "boom")).findings
      = some (Json.arr []) := rfl
  rw [h3] at h2
  exact Json.noConfusion (Option.some.inj h2)

/-- C4 amended: whenever the tool completes with *nonempty* stdout that is
not valid JSON, the report has `success = true` and `findings` is the raw
stdout text. -/
theorem c4_raw_fallback
    (jsonLoads : String → Option Json) (code : Int) (out err : String)
    (hne : out ≠ "") (hp : jsonLoads out = none) :
    (run_ansible_lint jsonLoads (.completed code out err)).success = true ∧
    (run_ansible_lint jsonLoads (.completed code out err)).findings = some (Json.str out) := by
  refine ⟨rfl, ?_⟩
  simp only [run_ansible_lint, if_neg hne, hp]

/-- Witness for the amended C4 at a concrete parser and non-JSON output. -/
theorem c4_raw_fallback_witness :
    (run_ansible_lint demoJsonLoads (.completed 2 "WARNING" "")).success = true ∧
    (run_ansible_lint demoJsonLoads (.completed 2 "WARNING" "")).findings
      = some (Json.str "WARNING") :=
  c4_raw_fallback demoJsonLoads 2 "WARNING" "" (by decide) rfl

/-- C5: each invocation failure yields exactly the two-key error dict —
`success = false`, the categorized error string, and no findings, summary or
stderr fields. -/
theorem c5_invocation_failures (jsonLoads : String → Option Json) (msg : String) :
    run_ansible_lint jsonLoads .fileNotFound =
      ⟨false, none, none, none,
        some "ansible-lint not found. Install with: pip install ansible-lint"⟩ ∧
    run_ansible_lint jsonLoads .timeout =
      ⟨false, none, none, none, some "ansible-lint timed out after 60 seconds"⟩ ∧
    run_ansible_lint jsonLoads (.otherError msg) =
      ⟨false, none, none, none, some msg⟩ :=
  ⟨rfl, rfl, rfl⟩

/-- C10: on empty stdout the report has `success = true`, `findings = []`
(the initial value), summary `"Found 0 ansible-lint findings"`, and is
independent of the JSON parser (no parse is attempted) and of the exit
code. -/
theorem c10_empty_stdout
    (jsonLoads jsonLoads2 : String → Option Json) (code code2 : Int) (err : String) :
    (run_ansible_lint jsonLoads (.completed code "" err)).success = true ∧
    (run_ansible_lint jsonLoads (.completed code "" err)).findings = some (Json.arr []) ∧
    (run_ansible_lint jsonLoads (.completed code "" err)).summary
      = some "Found 0 ansible-lint findings" ∧
    run_ansible_lint jsonLoads (.completed code "" err)
      = run_ansible_lint jsonLoads2 (.completed code2 "" err) :=
  ⟨rfl, rfl, rfl, rfl⟩

/-- C1: analyzing an empty directory named `myrole` gives role name
`myrole`, the ten catalog entries all with `exists = false`, the single
missing-`tasks/main.yml` error Issue, the four Recommendations in order
(documentation, metadata, variables, testing), and summary `(0, 10, 1, 4)`. -/
theorem c1_empty_role_report :
    (analyze_role_structure "myrole" (FS.dir [])).role_name = "myrole" ∧
    (analyze_role_structure "myrole" (FS.dir [])).structure_.map Prod.fst
      = ["tasks", "handlers", "templates", "files", "vars", "defaults", "meta",
         "library", "module_utils", "lookup_plugins"] ∧
    (∀ p ∈ (analyze_role_structure "myrole" (FS.dir [])).structure_,
      p.2.«exists» = false) ∧
    (analyze_role_structure "myrole" (FS.dir [])).issues
      = [⟨"error", "Missing tasks/main.yml - required entry point for role"⟩] ∧
    (analyze_role_structure "myrole" (FS.dir [])).recommendations.map Recommendation.type
      = ["documentation", "metadata", "variables", "testing"] ∧
    (analyze_role_structure "myrole" (FS.dir [])).summary = ⟨0, 10, 1, 4⟩ := by
  decide

/-- Auxiliary: filtering the mapped-out second components counts the same
pairs as filtering the pairs themselves. -/
theorem length_filter_map_snd {α β : Type} (l : List (α × β)) (p : β → Bool) :
    ((l.map Prod.snd).filter p).length = (l.filter (fun x => p x.2)).length := by
  induction l with
  | nil => rfl
  | cons a t ih =>
    by_cases h : p a.2 <;> simp [List.filter_cons, h, ih]

/-- C2: the summary is a pure aggregate of the rest of the report:
`directories_present` counts the structure entries with `exists = true`,
`total_expected` is the catalog size (10), and the two counts are the
lengths of the issue and recommendation sequences. -/
theorem c2_summary_aggregates (name : String) (fs : FS) :
    (analyze_role_structure name fs).summary.directories_present
      = ((analyze_role_structure name fs).structure_.filter
          (fun p => p.2.«exists»)).length ∧
    (analyze_role_structure name fs).summary.total_expected = expected_dirs.length ∧
    expected_dirs.length = 10 ∧
    (analyze_role_structure name fs).summary.issue_count
      = (analyze_role_structure name fs).issues.length ∧
    (analyze_role_structure name fs).summary.recommendation_count
      = (analyze_role_structure name fs).recommendations.length :=
  ⟨length_filter_map_snd _ _, rfl, rfl, rfl, rfl⟩

/-- C6: the issue list is the single fixed `error` Issue exactly when
`root/tasks/main.yml` does not exist, and empty otherwise, independently of
everything else in the tree. -/
theorem c6_single_issue_iff_missing_tasks_main (name : String) (fs : FS) :
    (analyze_role_structure name fs).issues
      = if fs.pexists ["tasks", "main.yml"] then []
        else [⟨"error", "Missing tasks/main.yml - required entry point for role"⟩] :=
  rfl

/-- C9: the analyzer is deterministic — two invocations on the same role
name and identical filesystem state produce equal reports (equality of
`StructureReport` includes the order of structure entries, issues and
recommendations). -/
theorem c9_deterministic (name : String) (fs : FS) (r1 r2 : StructureReport)
    (h1 : analyze_role_structure name fs = r1)
    (h2 : analyze_role_structure name fs = r2) : r1 = r2 :=
  h1 ▸ h2 ▸ rfl

/-- Witness for C9 on a concrete role. -/
theorem c9_deterministic_witness :
    analyze_role_structure "myrole" (FS.dir [("tasks", FS.dir [])])
      = analyze_role_structure "myrole" (FS.dir [("tasks", FS.dir [])]) :=
  c9_deterministic "myrole" (FS.dir [("tasks", FS.dir [])]) _ _ rfl rfl

/-- C8: the documentation recommendation is in the report exactly when no
directory entry named `README*` lies directly under the root (`glob`
matches entries of every kind, so "file" is read as directory entry). -/
theorem c8_doc_recommendation_iff_no_readme (name : String) (fs : FS) :
    docRecommendation ∈ (analyze_role_structure name fs).recommendations ↔
      ∀ p ∈ fs.children, p.1.startsWith "README" = false := by
  have hiff : (hasReadme fs = false) ↔
      ∀ p ∈ fs.children, p.1.startsWith "README" = false := by
    rw [Bool.eq_false_iff]
    simp [hasReadme, List.any_eq_true]
  rw [← hiff]
  cases hR : hasReadme fs <;>
    cases hM : fs.pexists ["meta", "main.yml"] <;>
      cases hD : fs.pexists ["defaults", "main.yml"] <;>
        cases hT1 : fs.pexists ["tests"] <;>
          cases hT2 : fs.pexists ["molecule"] <;>
            simp [analyze_role_structure, hR, hM, hD, hT1, hT2, docRecommendation,
              metaRecommendation, varsRecommendation, testingRecommendation]

/-- C7, as frozen: for every structure entry recorded as existing, the
recorded `file_count` is the number of *regular files* below that
subdirectory, symlinks excluded. -/
def specFileCountClaim : Prop :=
  ∀ (name : String) (fs : FS), ∀ p ∈ (analyze_role_structure name fs).structure_,
    p.2.«exists» = true →
    ∀ sub, fs.lookupPath [p.1] = some sub →
      p.2.file_count = some sub.specRegularFileCount

/-- C7 counterexample: a `tasks` directory holding one symlink whose target
is a regular file.  `Path.is_file()` follows symlinks, so the code records
`file_count = 1`, while the count with symlinks excluded is 0. -/
theorem c7_counterexample : ¬ specFileCountClaim := by
  intro h
  have h2 := h "myrole" (FS.dir [("tasks", FS.dir [("link", FS.symlink true)])])
      ("tasks", ⟨true, some 1, "Task files (main.yml required)"⟩)
      (by decide) rfl (FS.dir [("link", FS.symlink true)]) rfl
  exact absurd h2 (by decide)

/-- C7 amended: for every structure entry recorded as existing, the root
has a directory of that name and the recorded `file_count` is the number of
entries below it that *resolve to* regular files — regular files plus
symlinks whose target is a regular file; directories, special files and
dangling symlinks are excluded, and the walk does not descend through
symlinks. -/
theorem c7_file_count_amended (name : String) (fs : FS) :
    ∀ p ∈ (analyze_role_structure name fs).structure_, p.2.«exists» = true →
      ∃ cs, fs.lookupPath [p.1] = some (FS.dir cs) ∧
        p.2.file_count = some (countFilesOf cs) := by
  intro p hp hex
  simp only [analyze_role_structure, List.mem_map] at hp
  obtain ⟨q, hq, rfl⟩ := hp
  simp only [entryStatus] at hex ⊢
  cases hl : fs.lookupPath [q.1] with
  | none => rw [hl] at hex; simp at hex
  | some e =>
    cases e with
    | file => rw [hl] at hex; simp at hex
    | symlink rf => rw [hl] at hex; simp at hex
    | special => rw [hl] at hex; simp at hex
    | dir cs => exact ⟨cs, rfl, rfl⟩

/-- Witness for the amended C7 on a `tasks` directory with one regular
file. -/
theorem c7_file_count_amended_witness :
    ∃ cs, (FS.dir [("tasks", FS.dir [("a", FS.file)])]).lookupPath ["tasks"]
        = some (FS.dir cs) ∧
      (DirStatus.mk true (some 1) "Task files (main.yml required)").file_count
        = some (countFilesOf cs) :=
  c7_file_count_amended "myrole" (FS.dir [("tasks", FS.dir [("a", FS.file)])])
    ("tasks", ⟨true, some 1, "Task files (main.yml required)"⟩) (by decide) rfl

end AnsibleReviewer
